import Mathlib

/-!
Verification development for the metrics core of the ingress controller
(package `pkg/metrics`): feature classification of routing objects
("ingresses") and their backends ("service ports"), a key-value state
registry, and the aggregation passes `computeIngressMetrics` /
`computeNegMetrics`.

The repository provides `pkg/metrics/types.go` (data types and the
collector interfaces) and the behavioral test suite
`pkg/metrics/metrics_test.go`.  The classifier and aggregation function
bodies themselves are not part of the provided sources, so they are
modelled here from the specification, with every behavioral choice pinned
by the expected outputs in `metrics_test.go`.
-/

/-- The feature tags of the three closed vocabularies (FrontendFeature,
BackendFeature, NegFeature), mirroring the `feature` constants of the
metrics package. -/
inductive feature where
  | ingress
  | externalIngress
  | internalIngress
  | httpEnabled
  | hostBasedRouting
  | pathBasedRouting
  | preSharedCertsForTLS
  | managedCertsForTLS
  | secretBasedCertsForTLS
  | tlsTermination
  | staticGlobalIP
  | servicePort
  | externalServicePort
  | internalServicePort
  | neg
  | cloudCDN
  | cloudIAP
  | cookieAffinity
  | clientIPAffinity
  | cloudArmor
  | backendConnectionDraining
  | backendTimeout
  | customRequestHeaders
  | standaloneNeg
  | ingressNeg
  | asmNeg
  deriving DecidableEq, Repr

/-- Backend identity: namespace, service name and port
(`utils.ServicePortID` with `types.NamespacedName`). -/
structure ServicePortID where
  serviceNamespace : String
  serviceName : String
  port : Nat
  deriving DecidableEq, Repr

/-- `backendconfigv1.CDNConfig` (the fields the classifier reads). -/
structure CDNConfig where
  enabled : Bool
  deriving DecidableEq, Repr

/-- `backendconfigv1.IAPConfig` (the fields the classifier reads). -/
structure IAPConfig where
  enabled : Bool
  deriving DecidableEq, Repr

/-- `backendconfigv1.SessionAffinityConfig`. -/
structure SessionAffinityConfig where
  affinityType : String
  affinityCookieTtlSec : Option Int
  deriving DecidableEq, Repr

/-- `backendconfigv1.SecurityPolicyConfig`. -/
structure SecurityPolicyConfig where
  name : String
  deriving DecidableEq, Repr

/-- `backendconfigv1.ConnectionDrainingConfig`. -/
structure ConnectionDrainingConfig where
  drainingTimeoutSec : Int
  deriving DecidableEq, Repr

/-- `backendconfigv1.CustomRequestHeadersConfig`: a (possibly empty) list
of header strings. -/
structure CustomRequestHeadersConfig where
  headers : List String
  deriving DecidableEq, Repr

/-- `backendconfigv1.BackendConfigSpec`: the optional advanced
configuration attached to a backend. -/
structure BackendConfigSpec where
  cdn : Option CDNConfig
  iap : Option IAPConfig
  sessionAffinity : Option SessionAffinityConfig
  securityPolicy : Option SecurityPolicyConfig
  connectionDraining : Option ConnectionDrainingConfig
  timeoutSec : Option Int
  customRequestHeaders : Option CustomRequestHeadersConfig
  deriving DecidableEq, Repr

/-- `utils.ServicePort`: a backend reference with its identity, the NEG
and internal-load-balancer flags and the optional backend config. -/
structure ServicePort where
  id : ServicePortID
  negEnabled : Bool
  l7ILBEnabled : Bool
  backendConfig : Option BackendConfigSpec
  deriving DecidableEq, Repr

/-- `v1beta1.IngressBackend`: a service name and port reference. -/
structure IngressBackend where
  serviceName : String
  servicePort : Nat
  deriving DecidableEq, Repr

/-- `v1beta1.HTTPIngressPath`. -/
structure HTTPIngressPath where
  path : String
  backend : IngressBackend
  deriving DecidableEq, Repr

/-- `v1beta1.IngressRule`: an optional host and an optional HTTP block
holding the path entries. -/
structure IngressRule where
  host : String
  http : Option (List HTTPIngressPath)
  deriving DecidableEq, Repr

/-- `v1beta1.IngressTLS`: hosts plus a secret reference. -/
structure IngressTLS where
  hosts : List String
  secretName : String
  deriving DecidableEq, Repr

/-- `v1beta1.Ingress`: the routing object.  Annotations are an
association list mirroring the Go string map. -/
structure Ingress where
  ns : String
  name : String
  anns : List (String × String)
  backend : Option IngressBackend
  rules : List IngressRule
  tls : List IngressTLS
  deriving DecidableEq, Repr

def allowHTTPKey : String := "kubernetes.io/ingress.allow-http"

def ingressClassKey : String := "kubernetes.io/ingress.class"

def gceL7ILBIngressClass : String := "gce-internal"

def preSharedCertKey : String := "ingress.gcp.kubernetes.io/pre-shared-cert"

def managedCertKey : String := "networking.gke.io/managed-certificates"

def staticIPKey : String := "kubernetes.io/ingress.global-static-ip-name"

/-- Lookup in an annotation map (first matching key, mirroring a Go map
with unique keys). -/
def annLookup : List (String × String) → String → Option String
  | [], _ => none
  | (a, v) :: rest, k => if a = k then some v else annLookup rest k

/-- The strings Go's `strconv.ParseBool` parses as `false` (the
"false-like" values of the disable-HTTP annotation). -/
def isFalseLike (s : String) : Bool :=
  s = "0" || s = "f" || s = "F" || s = "false" || s = "FALSE" || s = "False"

/-- Modelled from the spec: the routing object allows HTTP unless an
explicit "disable HTTP" annotation is set to a false-like value
(`annotations.AllowHTTP`, absent from the provided sources). -/
def allowHTTP (ing : Ingress) : Bool :=
  match annLookup ing.anns allowHTTPKey with
  | none => true
  | some v => !(isFalseLike v)

/-- The class annotation marks the object as an internal-load-balancer
ingress. -/
def isInternalClass (ing : Ingress) : Bool :=
  annLookup ing.anns ingressClassKey = some gceL7ILBIngressClass

/-- A pre-shared-certificate annotation is present. -/
def hasPreSharedCert (ing : Ingress) : Bool :=
  (annLookup ing.anns preSharedCertKey).isSome

/-- A managed-certificate annotation is present. -/
def hasManagedCert (ing : Ingress) : Bool :=
  (annLookup ing.anns managedCertKey).isSome

/-- The TLS spec references at least one secret. -/
def hasSecretBasedCerts (ing : Ingress) : Bool :=
  ing.tls.any (fun t => t.secretName != "")

/-- A static-IP annotation is present. -/
def hasStaticIP (ing : Ingress) : Bool :=
  (annLookup ing.anns staticIPKey).isSome

/-- Some rule specifies a non-empty host. -/
def hasHostRule (ing : Ingress) : Bool :=
  ing.rules.any (fun r => r.host != "")

/-- Some rule specifies at least one path entry. -/
def hasPathRule (ing : Ingress) : Bool :=
  ing.rules.any (fun r => match r.http with
    | some ps => !ps.isEmpty
    | none => false)

/-- Modelled from the spec: `featuresForIngress` (`ClassifyFrontend`),
whose body is absent from the provided sources.  Emission conditions and
output order are pinned by `TestFeaturesForIngress` in
`metrics_test.go`. -/
def featuresForIngress (ing : Ingress) : List feature :=
  [feature.ingress]
  ++ (if isInternalClass ing then [feature.internalIngress] else [feature.externalIngress])
  ++ (if allowHTTP ing then [feature.httpEnabled] else [])
  ++ (if hasHostRule ing then [feature.hostBasedRouting] else [])
  ++ (if hasPathRule ing then [feature.pathBasedRouting] else [])
  ++ (if hasPreSharedCert ing then [feature.preSharedCertsForTLS] else [])
  ++ (if hasManagedCert ing then [feature.managedCertsForTLS] else [])
  ++ (if hasSecretBasedCerts ing then [feature.secretBasedCertsForTLS] else [])
  ++ (if hasPreSharedCert ing || hasManagedCert ing || hasSecretBasedCerts ing then
        [feature.tlsTermination] else [])
  ++ (if hasStaticIP ing then [feature.staticGlobalIP] else [])

/-- CDN config present and enabled. -/
def spCdnEnabled (sp : ServicePort) : Bool :=
  match sp.backendConfig with
  | some cfg => (cfg.cdn.map CDNConfig.enabled).getD false
  | none => false

/-- IAP config present and enabled. -/
def spIapEnabled (sp : ServicePort) : Bool :=
  match sp.backendConfig with
  | some cfg => (cfg.iap.map IAPConfig.enabled).getD false
  | none => false

/-- The configured session-affinity type, when any. -/
def spAffinityType (sp : ServicePort) : Option String :=
  match sp.backendConfig with
  | some cfg => cfg.sessionAffinity.map SessionAffinityConfig.affinityType
  | none => none

/-- A security-policy reference with a non-empty name is present. -/
def spHasSecurityPolicy (sp : ServicePort) : Bool :=
  match sp.backendConfig with
  | some cfg =>
    match cfg.securityPolicy with
    | some pol => pol.name != ""
    | none => false
  | none => false

/-- Connection-draining config is present. -/
def spHasConnectionDraining (sp : ServicePort) : Bool :=
  match sp.backendConfig with
  | some cfg => cfg.connectionDraining.isSome
  | none => false

/-- A timeout value is configured. -/
def spHasTimeout (sp : ServicePort) : Bool :=
  match sp.backendConfig with
  | some cfg => cfg.timeoutSec.isSome
  | none => false

/-- The custom-request-headers config object is present (its header list
may be empty). -/
def spHasCustomRequestHeaders (sp : ServicePort) : Bool :=
  match sp.backendConfig with
  | some cfg => cfg.customRequestHeaders.isSome
  | none => false

/-- Modelled from the spec: `featuresForServicePort` (`ClassifyBackend`),
whose body is absent from the provided sources.  Emission conditions and
output order are pinned by `TestFeaturesForServicePort` in
`metrics_test.go`. -/
def featuresForServicePort (sp : ServicePort) : List feature :=
  [feature.servicePort]
  ++ (if sp.l7ILBEnabled then [feature.internalServicePort] else [feature.externalServicePort])
  ++ (if sp.negEnabled then [feature.neg] else [])
  ++ (if spCdnEnabled sp then [feature.cloudCDN] else [])
  ++ (if spIapEnabled sp then [feature.cloudIAP] else [])
  ++ (if spAffinityType sp = some "GENERATED_COOKIE" then [feature.cookieAffinity] else [])
  ++ (if spAffinityType sp = some "CLIENT_IP" then [feature.clientIPAffinity] else [])
  ++ (if spHasSecurityPolicy sp then [feature.cloudArmor] else [])
  ++ (if spHasConnectionDraining sp then [feature.backendConnectionDraining] else [])
  ++ (if spHasTimeout sp then [feature.backendTimeout] else [])
  ++ (if spHasCustomRequestHeaders sp then [feature.customRequestHeaders] else [])

/-- `IngressState` from `types.go`: an ingress and its associated service
ports. -/
structure IngressState where
  ingress : Ingress
  servicePorts : List ServicePort
  deriving DecidableEq, Repr

/-- `NegServiceState` from `types.go`: the NEG usage counters of one
service. -/
structure NegServiceState where
  StandaloneNeg : Int
  IngressNeg : Int
  AsmNeg : Int
  deriving DecidableEq, Repr

/-- `NewIngressState` from the metrics package. -/
def NewIngressState (ing : Ingress) (svcPorts : List ServicePort) : IngressState :=
  { ingress := ing, servicePorts := svcPorts }

/-- Insert-or-replace on an association list: the model of a Go map
write.  Replaces the entry of an existing key in place, appends a new
entry otherwise. -/
def mapSet {α : Type} : List (String × α) → String → α → List (String × α)
  | [], k, v => [(k, v)]
  | (a, b) :: rest, k, v =>
    if a = k then (k, v) :: rest else (a, b) :: mapSet rest k v

/-- Removal on an association list: the model of a Go map delete.
Removes the entries of the key; a no-op when the key is absent. -/
def mapDelete {α : Type} : List (String × α) → String → List (String × α)
  | [], _ => []
  | (a, b) :: rest, k =>
    if a = k then mapDelete rest k else (a, b) :: mapDelete rest k

/-- The key is present in the association list. -/
def containsKey {α : Type} (m : List (String × α)) (k : String) : Bool :=
  m.any (fun p => p.1 == k)

/-- `ControllerMetrics`: the two registries (ingress states and NEG
service states), modelled as association lists with Go-map update
semantics. -/
structure ControllerMetrics where
  ingressMap : List (String × IngressState)
  negMap : List (String × NegServiceState)
  deriving DecidableEq, Repr

/-- `NewControllerMetrics`: both registries start empty. -/
def NewControllerMetrics : ControllerMetrics :=
  { ingressMap := [], negMap := [] }

/-- `SetIngress`: adds/updates the ingress state for the given key. -/
def SetIngress (cm : ControllerMetrics) (ingKey : String) (ing : IngressState) :
    ControllerMetrics :=
  { cm with ingressMap := mapSet cm.ingressMap ingKey ing }

/-- `DeleteIngress`: removes the given ingress key. -/
def DeleteIngress (cm : ControllerMetrics) (ingKey : String) : ControllerMetrics :=
  { cm with ingressMap := mapDelete cm.ingressMap ingKey }

/-- `SetNegService`: adds/updates the NEG state for the given service
key. -/
def SetNegService (cm : ControllerMetrics) (svcKey : String) (negState : NegServiceState) :
    ControllerMetrics :=
  { cm with negMap := mapSet cm.negMap svcKey negState }

/-- `DeleteNegService`: removes the given service key. -/
def DeleteNegService (cm : ControllerMetrics) (svcKey : String) : ControllerMetrics :=
  { cm with negMap := mapDelete cm.negMap svcKey }

/-- A count map (feature → Nat), modelled as an association list with a
fixed key set. -/
abbrev CountMap := List (feature × Nat)

/-- Lookup in a count map. -/
def cmLookup : CountMap → feature → Option Nat
  | [], _ => none
  | (a, n) :: rest, g => if a = g then some n else cmLookup rest g

/-- Increment the count of a feature if its key is present; entries of
other keys are untouched and absent keys are not created. -/
def cmInc : CountMap → feature → CountMap
  | [], _ => []
  | (a, n) :: rest, f =>
    (a, if a = f then n + 1 else n) :: cmInc rest f

/-- Increment once per element of a tag list. -/
def cmIncList (m : CountMap) (fs : List feature) : CountMap :=
  fs.foldl cmInc m

/-- The keys of a count map. -/
def cmKeys (m : CountMap) : List feature :=
  m.map Prod.fst

/-- The FrontendFeature vocabulary: the tags `featuresForIngress` can
emit. -/
def frontendFeaturesList : List feature :=
  [feature.ingress, feature.externalIngress, feature.internalIngress,
   feature.httpEnabled, feature.hostBasedRouting, feature.pathBasedRouting,
   feature.preSharedCertsForTLS, feature.managedCertsForTLS,
   feature.secretBasedCertsForTLS, feature.tlsTermination, feature.staticGlobalIP]

/-- The BackendFeature vocabulary: the tags `featuresForServicePort` can
emit. -/
def backendFeaturesList : List feature :=
  [feature.servicePort, feature.externalServicePort, feature.internalServicePort,
   feature.neg, feature.cloudCDN, feature.cloudIAP, feature.cookieAffinity,
   feature.clientIPAffinity, feature.cloudArmor, feature.backendConnectionDraining,
   feature.backendTimeout, feature.customRequestHeaders]

/-- The backend tags also tracked per ingress (all BackendFeature tags
except the servicePort kind tags), pinned by the expected key sets of
`TestComputeIngressMetrics`. -/
def ingressBackendTags : List feature :=
  [feature.neg, feature.cloudCDN, feature.cloudIAP, feature.cookieAffinity,
   feature.clientIPAffinity, feature.cloudArmor, feature.backendConnectionDraining,
   feature.backendTimeout, feature.customRequestHeaders]

/-- The key set of the per-ingress count map. -/
def ingressCountKeys : List feature :=
  frontendFeaturesList ++ ingressBackendTags

/-- Modelled from the spec: `initializeCounts` of the metrics package
(absent from the provided sources) returns the ingress count map and the
service-port count map with every tracked tag mapped to 0; the exact key
sets are pinned by the expected maps of `TestComputeIngressMetrics`. -/
def initCounts : CountMap × CountMap :=
  (ingressCountKeys.map (fun f => (f, 0)), backendFeaturesList.map (fun f => (f, 0)))

/-- Add an element to a first-seen-order set, modelled after inserting
into a Go map used as a set. -/
def seenInsert {α : Type} [DecidableEq α] (acc : List α) (x : α) : List α :=
  if x ∈ acc then acc else acc ++ [x]

/-- The distinct service-port values referenced by the registered
ingresses, deduplicated by the whole `ServicePort` value in first-seen
order. -/
def uniqueSvcPorts (cm : ControllerMetrics) : List ServicePort :=
  cm.ingressMap.foldl (fun acc p => p.2.servicePorts.foldl seenInsert acc) []

/-- Order-preserving deduplication of a tag list (a Go
`map[feature]bool` recorded in first-seen order). -/
def dedupFeatures (l : List feature) : List feature :=
  l.foldl seenInsert []

/-- The deduplicated set of features of one ingress state: its frontend
features together with the features of every service port it
references. -/
def ingressFeatureSet (st : IngressState) : List feature :=
  dedupFeatures (featuresForIngress st.ingress
    ++ st.servicePorts.foldl (fun acc sp => acc ++ featuresForServicePort sp) [])

/-- Modelled from the spec: `computeIngressMetrics` (absent from the
provided sources).  Returns the per-ingress feature counts (each
registered ingress contributes one count per feature it or any of its
service ports exhibits) and the per-service-port feature counts (each
distinct service-port value contributes one count per feature it
exhibits).  Increments touch only the keys laid down by `initCounts`,
and backends are deduplicated by the whole `ServicePort` value, both
pinned by `TestComputeIngressMetrics`. -/
def computeIngressMetrics (cm : ControllerMetrics) : CountMap × CountMap :=
  (cm.ingressMap.foldl (fun acc p => cmIncList acc (ingressFeatureSet p.2)) initCounts.1,
   (uniqueSvcPorts cm).foldl (fun acc sp => cmIncList acc (featuresForServicePort sp))
     initCounts.2)

/-- A NEG count map (feature → Int). -/
abbrev NegCountMap := List (feature × Int)

/-- Add a delta to the count of a feature whose key is present. -/
def negAdd (m : NegCountMap) (f : feature) (d : Int) : NegCountMap :=
  m.map (fun p => if p.1 = f then (p.1, p.2 + d) else p)

/-- Fold one NEG service state into the running totals. -/
def negStep (acc : NegCountMap) (p : String × NegServiceState) : NegCountMap :=
  negAdd (negAdd (negAdd (negAdd acc feature.standaloneNeg p.2.StandaloneNeg)
      feature.ingressNeg p.2.IngressNeg)
    feature.asmNeg p.2.AsmNeg)
  feature.neg (p.2.StandaloneNeg + p.2.IngressNeg + p.2.AsmNeg)

/-- Modelled from the spec: `computeNegMetrics` (absent from the
provided sources).  Adds the three counters of every registered NEG
service state to the per-tag totals and their sum to the combined `neg`
total, as pinned by `TestComputeNegMetrics`. -/
def computeNegMetrics (cm : ControllerMetrics) : NegCountMap :=
  cm.negMap.foldl negStep
    [(feature.standaloneNeg, 0), (feature.ingressNeg, 0), (feature.asmNeg, 0),
     (feature.neg, 0)]

/-- `testServicePorts[0]` from `metrics_test.go`. -/
def tsp0 : ServicePort :=
  { id := { serviceNamespace := "default", serviceName := "dummy-service", port := 80 },
    negEnabled := false, l7ILBEnabled := false,
    backendConfig := some
      { cdn := some { enabled := true },
        iap := none,
        sessionAffinity := some { affinityType := "GENERATED_COOKIE",
                                  affinityCookieTtlSec := some 10 },
        securityPolicy := some { name := "security-policy-1" },
        connectionDraining := some { drainingTimeoutSec := 10 },
        timeoutSec := none,
        customRequestHeaders := none } }

/-- The backend config of `testServicePorts[1]` from `metrics_test.go`:
note the explicitly configured empty custom-request-header list. -/
def tsp1cfg : BackendConfigSpec :=
  { cdn := none,
    iap := some { enabled := true },
    sessionAffinity := some { affinityType := "CLIENT_IP",
                              affinityCookieTtlSec := some 10 },
    securityPolicy := none,
    connectionDraining := none,
    timeoutSec := some 10,
    customRequestHeaders := some { headers := [] } }

/-- `testServicePorts[1]` from `metrics_test.go`. -/
def tsp1 : ServicePort :=
  { id := { serviceNamespace := "default", serviceName := "foo-service", port := 80 },
    negEnabled := true, l7ILBEnabled := false,
    backendConfig := some tsp1cfg }

/-- `testServicePorts[2]` from `metrics_test.go`: same identity triple as
`tsp0` but different flags and no backend config. -/
def tsp2 : ServicePort :=
  { id := { serviceNamespace := "default", serviceName := "dummy-service", port := 80 },
    negEnabled := true, l7ILBEnabled := true, backendConfig := none }

/-- `testServicePorts[3]` from `metrics_test.go`. -/
def tsp3 : ServicePort :=
  { id := { serviceNamespace := "default", serviceName := "bar-service", port := 5000 },
    negEnabled := true, l7ILBEnabled := true,
    backendConfig := some
      { cdn := none,
        iap := some { enabled := true },
        sessionAffinity := some { affinityType := "GENERATED_COOKIE",
                                  affinityCookieTtlSec := some 10 },
        securityPolicy := none,
        connectionDraining := some { drainingTimeoutSec := 10 },
        timeoutSec := none,
        customRequestHeaders := none } }

/-- `ingressStates[0].ing` ("empty spec"). -/
def ing0 : Ingress :=
  { ns := "default", name := "ingress0", anns := [], backend := none, rules := [], tls := [] }

/-- `ingressStates[1].ing` ("http disabled"). -/
def ing1 : Ingress :=
  { ns := "default", name := "ingress1", anns := [(allowHTTPKey, "false")],
    backend := none, rules := [], tls := [] }

/-- `ingressStates[2].ing` ("default backend"). -/
def ing2 : Ingress :=
  { ns := "default", name := "ingress2", anns := [],
    backend := some { serviceName := "dummy-service", servicePort := 80 },
    rules := [], tls := [] }

/-- `ingressStates[3].ing` ("host rule only"). -/
def ing3 : Ingress :=
  { ns := "default", name := "ingress3", anns := [], backend := none,
    rules := [{ host := "foo.bar", http := none }], tls := [] }

/-- `ingressStates[4].ing` ("both host and path rules"). -/
def ing4 : Ingress :=
  { ns := "default", name := "ingress4", anns := [], backend := none,
    rules := [{ host := "foo.bar",
                http := some [{ path := "/foo",
                                backend := { serviceName := "foo-service",
                                             servicePort := 80 } }] }],
    tls := [] }

/-- `ingressStates[5].ing` ("default backend and host rule"). -/
def ing5 : Ingress :=
  { ns := "default", name := "ingress5", anns := [],
    backend := some { serviceName := "dummy-service", servicePort := 80 },
    rules := [{ host := "foo.bar",
                http := some [{ path := "/foo",
                                backend := { serviceName := "foo-service",
                                             servicePort := 80 } }] }],
    tls := [] }

/-- `ingressStates[6].ing` ("tls termination with pre-shared certs"). -/
def ing6 : Ingress :=
  { ns := "default", name := "ingress6",
    anns := [(preSharedCertKey, "pre-shared-cert1,pre-shared-cert2")],
    backend := some { serviceName := "dummy-service", servicePort := 80 },
    rules := [], tls := [] }

/-- `ingressStates[7].ing` ("tls termination with google managed certs"). -/
def ing7 : Ingress :=
  { ns := "default", name := "ingress7",
    anns := [(managedCertKey, "managed-cert1,managed-cert2")],
    backend := some { serviceName := "dummy-service", servicePort := 80 },
    rules := [], tls := [] }

/-- `ingressStates[8].ing` ("tls termination with pre-shared and google
managed certs"). -/
def ing8 : Ingress :=
  { ns := "default", name := "ingress8",
    anns := [(preSharedCertKey, "pre-shared-cert1,pre-shared-cert2"),
             (managedCertKey, "managed-cert1,managed-cert2")],
    backend := some { serviceName := "dummy-service", servicePort := 80 },
    rules := [], tls := [] }

/-- `ingressStates[9].ing` ("tls termination with pre-shared and secret
based certs"). -/
def ing9 : Ingress :=
  { ns := "default", name := "ingress9",
    anns := [(preSharedCertKey, "pre-shared-cert1,pre-shared-cert2")],
    backend := none,
    rules := [{ host := "foo.bar",
                http := some [{ path := "/foo",
                                backend := { serviceName := "foo-service",
                                             servicePort := 80 } }] }],
    tls := [{ hosts := ["foo.bar"], secretName := "secret-1" }] }

/-- `ingressStates[10].ing` ("global static ip"). -/
def ing10 : Ingress :=
  { ns := "default", name := "ingress10",
    anns := [(preSharedCertKey, "pre-shared-cert1,pre-shared-cert2"),
             (staticIPKey, "10.0.1.2")],
    backend := some { serviceName := "dummy-service", servicePort := 80 },
    rules := [], tls := [] }

/-- `ingressStates[11].ing` ("default backend, host rule for internal
load-balancer"). -/
def ing11 : Ingress :=
  { ns := "default", name := "ingress11",
    anns := [(ingressClassKey, gceL7ILBIngressClass)],
    backend := some { serviceName := "dummy-service", servicePort := 80 },
    rules := [{ host := "bar",
                http := some [{ path := "/bar",
                                backend := { serviceName := "bar-service",
                                             servicePort := 5000 } }] }],
    tls := [] }

/-- The registry of the "all ingress features" case of
`TestComputeIngressMetrics`: all twelve ingress states registered under
their `namespace/name` keys. -/
def cmAll : ControllerMetrics :=
  SetIngress (SetIngress (SetIngress (SetIngress (SetIngress (SetIngress
    (SetIngress (SetIngress (SetIngress (SetIngress (SetIngress (SetIngress
      NewControllerMetrics
      "default/ingress0" (NewIngressState ing0 []))
      "default/ingress1" (NewIngressState ing1 []))
      "default/ingress2" (NewIngressState ing2 [tsp0]))
      "default/ingress3" (NewIngressState ing3 []))
      "default/ingress4" (NewIngressState ing4 [tsp1]))
      "default/ingress5" (NewIngressState ing5 [tsp0, tsp1]))
      "default/ingress6" (NewIngressState ing6 [tsp0]))
      "default/ingress7" (NewIngressState ing7 [tsp0]))
      "default/ingress8" (NewIngressState ing8 [tsp0]))
      "default/ingress9" (NewIngressState ing9 [tsp1]))
      "default/ingress10" (NewIngressState ing10 [tsp0]))
      "default/ingress11" (NewIngressState ing11 [tsp2, tsp3])

/-- Two registered routing objects whose service ports share the identity
triple `(default, dummy-service, 80)` but differ in their other fields
(`tsp0` with a backend config, `tsp2` with NEG and internal-LB flags). -/
def cmDup : ControllerMetrics :=
  SetIngress (SetIngress NewControllerMetrics
    "default/ingress0" (NewIngressState ing0 [tsp0]))
    "default/ingress1" (NewIngressState ing1 [tsp2])

/-- The three backend groups of the C5 scenario. -/
def cmNeg3 : ControllerMetrics :=
  SetNegService (SetNegService (SetNegService NewControllerMetrics
    "0" { StandaloneNeg := 0, IngressNeg := 0, AsmNeg := 1 })
    "1" { StandaloneNeg := 0, IngressNeg := 1, AsmNeg := 0 })
    "2" { StandaloneNeg := 5, IngressNeg := 3, AsmNeg := 2 }

/-!
Model validation: the classifier outputs and the aggregation results
of the embedding coincide with every expected value of the test suite
(`TestFeaturesForIngress`, `TestFeaturesForServicePort`,
`TestComputeIngressMetrics`, `TestComputeNegMetrics`).
-/

example : featuresForIngress ing0 =
    [feature.ingress, feature.externalIngress, feature.httpEnabled] := by rfl
example : featuresForIngress ing1 = [feature.ingress, feature.externalIngress] := by rfl
example : featuresForIngress ing2 =
    [feature.ingress, feature.externalIngress, feature.httpEnabled] := by rfl
example : featuresForIngress ing3 =
    [feature.ingress, feature.externalIngress, feature.httpEnabled,
     feature.hostBasedRouting] := by rfl
example : featuresForIngress ing4 =
    [feature.ingress, feature.externalIngress, feature.httpEnabled,
     feature.hostBasedRouting, feature.pathBasedRouting] := by rfl
example : featuresForIngress ing5 =
    [feature.ingress, feature.externalIngress, feature.httpEnabled,
     feature.hostBasedRouting, feature.pathBasedRouting] := by rfl
example : featuresForIngress ing6 =
    [feature.ingress, feature.externalIngress, feature.httpEnabled,
     feature.preSharedCertsForTLS, feature.tlsTermination] := by rfl
example : featuresForIngress ing7 =
    [feature.ingress, feature.externalIngress, feature.httpEnabled,
     feature.managedCertsForTLS, feature.tlsTermination] := by rfl
example : featuresForIngress ing8 =
    [feature.ingress, feature.externalIngress, feature.httpEnabled,
     feature.preSharedCertsForTLS, feature.managedCertsForTLS,
     feature.tlsTermination] := by rfl
example : featuresForIngress ing9 =
    [feature.ingress, feature.externalIngress, feature.httpEnabled,
     feature.hostBasedRouting, feature.pathBasedRouting,
     feature.preSharedCertsForTLS, feature.secretBasedCertsForTLS,
     feature.tlsTermination] := by rfl
example : featuresForIngress ing10 =
    [feature.ingress, feature.externalIngress, feature.httpEnabled,
     feature.preSharedCertsForTLS, feature.tlsTermination,
     feature.staticGlobalIP] := by rfl
example : featuresForIngress ing11 =
    [feature.ingress, feature.internalIngress, feature.httpEnabled,
     feature.hostBasedRouting, feature.pathBasedRouting] := by rfl

example : featuresForServicePort tsp0 =
    [feature.servicePort, feature.externalServicePort, feature.cloudCDN,
     feature.cookieAffinity, feature.cloudArmor,
     feature.backendConnectionDraining] := by rfl
example : featuresForServicePort tsp1 =
    [feature.servicePort, feature.externalServicePort, feature.neg,
     feature.cloudIAP, feature.clientIPAffinity, feature.backendTimeout,
     feature.customRequestHeaders] := by rfl
example : featuresForServicePort tsp2 =
    [feature.servicePort, feature.internalServicePort, feature.neg] := by rfl
example : featuresForServicePort tsp3 =
    [feature.servicePort, feature.internalServicePort, feature.neg,
     feature.cloudIAP, feature.cookieAffinity,
     feature.backendConnectionDraining] := by rfl

set_option maxRecDepth 20000 in
example : (computeIngressMetrics cmAll).1 =
    [(feature.ingress, 12), (feature.externalIngress, 11),
     (feature.internalIngress, 1), (feature.httpEnabled, 11),
     (feature.hostBasedRouting, 5), (feature.pathBasedRouting, 4),
     (feature.preSharedCertsForTLS, 4), (feature.managedCertsForTLS, 2),
     (feature.secretBasedCertsForTLS, 1), (feature.tlsTermination, 5),
     (feature.staticGlobalIP, 1), (feature.neg, 4), (feature.cloudCDN, 6),
     (feature.cloudIAP, 4), (feature.cookieAffinity, 7),
     (feature.clientIPAffinity, 3), (feature.cloudArmor, 6),
     (feature.backendConnectionDraining, 7), (feature.backendTimeout, 3),
     (feature.customRequestHeaders, 3)] := by rfl

set_option maxRecDepth 20000 in
example : (computeIngressMetrics cmAll).2 =
    [(feature.servicePort, 4), (feature.externalServicePort, 2),
     (feature.internalServicePort, 2), (feature.neg, 3),
     (feature.cloudCDN, 1), (feature.cloudIAP, 2), (feature.cookieAffinity, 2),
     (feature.clientIPAffinity, 1), (feature.cloudArmor, 1),
     (feature.backendConnectionDraining, 2), (feature.backendTimeout, 1),
     (feature.customRequestHeaders, 1)] := by rfl

set_option maxRecDepth 20000 in
example : computeNegMetrics (SetNegService (SetNegService (SetNegService
    (SetNegService NewControllerMetrics
      "0" { StandaloneNeg := 0, IngressNeg := 0, AsmNeg := 1 })
      "1" { StandaloneNeg := 0, IngressNeg := 1, AsmNeg := 0 })
      "2" { StandaloneNeg := 5, IngressNeg := 0, AsmNeg := 0 })
      "3" { StandaloneNeg := 5, IngressNeg := 3, AsmNeg := 2 }) =
    [(feature.standaloneNeg, 10), (feature.ingressNeg, 4),
     (feature.asmNeg, 3), (feature.neg, 17)] := by rfl

lemma mapSet_idem {α : Type} (m : List (String × α)) (k : String) (v : α) :
    mapSet (mapSet m k v) k v = mapSet m k v := by
  induction m with
  | nil => simp [mapSet]
  | cons p rest ih =>
    obtain ⟨a, b⟩ := p
    by_cases h : a = k
    · simp [mapSet, h]
    · simp [mapSet, h, ih]

lemma mapDelete_absent {α : Type} (m : List (String × α)) (k : String)
    (h : containsKey m k = false) : mapDelete m k = m := by
  induction m with
  | nil => simp [mapDelete]
  | cons p rest ih =>
    obtain ⟨a, b⟩ := p
    simp [containsKey, List.any_cons] at h
    simp [mapDelete, h.1, ih (by simpa [containsKey] using h.2)]

lemma mapDelete_mapSet_absent {α : Type} (m : List (String × α)) (k : String) (v : α)
    (h : containsKey m k = false) : mapDelete (mapSet m k v) k = m := by
  induction m with
  | nil => simp [mapSet, mapDelete]
  | cons p rest ih =>
    obtain ⟨a, b⟩ := p
    simp [containsKey, List.any_cons] at h
    simp [mapSet, mapDelete, h.1, Ne.symm h.1, ih (by simpa [containsKey] using h.2)]

lemma cmLookup_cmInc (m : CountMap) (f g : feature) :
    cmLookup (cmInc m f) g =
      if g = f then (cmLookup m g).map (· + 1) else cmLookup m g := by
  induction m with
  | nil => by_cases h : g = f <;> simp [cmInc, cmLookup, h]
  | cons p rest ih =>
    obtain ⟨a, n⟩ := p
    by_cases hag : a = g
    · subst hag
      by_cases haf : a = f
      · simp [cmInc, cmLookup, haf]
      · simp [cmInc, cmLookup, haf]
    · by_cases hgf : g = f
      · subst hgf
        simp [cmInc, cmLookup, hag, ih]
      · simp [cmInc, cmLookup, hag, hgf, ih]

lemma cmLookup_cmIncList (m : CountMap) (fs : List feature) (g : feature) :
    cmLookup (cmIncList m fs) g = (cmLookup m g).map (· + fs.count g) := by
  induction fs generalizing m with
  | nil => cases h : cmLookup m g <;> simp [cmIncList, h]
  | cons f rest ih =>
    have step : cmIncList m (f :: rest) = cmIncList (cmInc m f) rest := rfl
    rw [step, ih, cmLookup_cmInc]
    by_cases h : g = f
    · subst h
      cases hm : cmLookup m g <;>
        simp [hm, List.count_cons, Nat.add_comm, Nat.add_assoc, Nat.add_left_comm]
    · have hfg : ¬ f = g := fun hh => h hh.symm
      cases hm : cmLookup m g <;> simp [hm, h, List.count_cons]

lemma cmKeys_cmInc (m : CountMap) (f : feature) : cmKeys (cmInc m f) = cmKeys m := by
  induction m with
  | nil => simp [cmInc]
  | cons p rest ih =>
    obtain ⟨a, n⟩ := p
    simp [cmInc, cmKeys] at ih ⊢
    exact ih

lemma cmKeys_cmIncList (m : CountMap) (fs : List feature) :
    cmKeys (cmIncList m fs) = cmKeys m := by
  induction fs generalizing m with
  | nil => rfl
  | cons f rest ih =>
    have step : cmIncList m (f :: rest) = cmIncList (cmInc m f) rest := rfl
    rw [step, ih, cmKeys_cmInc]

lemma cmLookup_foldl {β : Type} (h : β → List feature) (l : List β) (m : CountMap)
    (g : feature) :
    cmLookup (l.foldl (fun acc x => cmIncList acc (h x)) m) g =
      (cmLookup m g).map (· + (l.map (fun x => (h x).count g)).sum) := by
  induction l generalizing m with
  | nil => cases hm : cmLookup m g <;> simp [hm]
  | cons x rest ih =>
    rw [List.foldl_cons, ih, cmLookup_cmIncList]
    cases hm : cmLookup m g <;>
      simp [hm, Nat.add_comm, Nat.add_assoc, Nat.add_left_comm]

lemma cmKeys_foldl {β : Type} (h : β → List feature) (l : List β) (m : CountMap) :
    cmKeys (l.foldl (fun acc x => cmIncList acc (h x)) m) = cmKeys m := by
  induction l generalizing m with
  | nil => rfl
  | cons x rest ih => rw [List.foldl_cons, ih, cmKeys_cmIncList]

lemma mem_foldl_seenInsert {α : Type} [DecidableEq α] (l acc : List α) (x : α) :
    x ∈ l.foldl seenInsert acc ↔ x ∈ acc ∨ x ∈ l := by
  induction l generalizing acc with
  | nil => simp
  | cons y rest ih =>
    rw [List.foldl_cons, ih]
    by_cases h : y ∈ acc
    · by_cases hxy : x = y
      · subst hxy; simp [seenInsert, h]
      · simp [seenInsert, h, hxy]
    · simp [seenInsert, h, List.mem_append, or_assoc]

lemma nodup_foldl_seenInsert {α : Type} [DecidableEq α] (l acc : List α)
    (h : acc.Nodup) : (l.foldl seenInsert acc).Nodup := by
  induction l generalizing acc with
  | nil => simpa
  | cons y rest ih =>
    rw [List.foldl_cons]
    apply ih
    by_cases hy : y ∈ acc
    · simpa [seenInsert, hy]
    · simp [seenInsert, hy, List.nodup_append, h]

lemma mem_uniqueSvcPorts (cm : ControllerMetrics) (sp : ServicePort) :
    sp ∈ uniqueSvcPorts cm ↔ ∃ p ∈ cm.ingressMap, sp ∈ p.2.servicePorts := by
  unfold uniqueSvcPorts
  generalize cm.ingressMap = l
  have main : ∀ (l : List (String × IngressState)) (acc : List ServicePort),
      sp ∈ l.foldl (fun acc p => p.2.servicePorts.foldl seenInsert acc) acc ↔
        sp ∈ acc ∨ ∃ p ∈ l, sp ∈ p.2.servicePorts := by
    intro l
    induction l with
    | nil => simp
    | cons p rest ih =>
      intro acc
      rw [List.foldl_cons, ih, mem_foldl_seenInsert]
      simp [or_assoc]
  simpa using main l []

lemma nodup_uniqueSvcPorts (cm : ControllerMetrics) : (uniqueSvcPorts cm).Nodup := by
  unfold uniqueSvcPorts
  generalize cm.ingressMap = l
  have main : ∀ (l : List (String × IngressState)) (acc : List ServicePort),
      acc.Nodup →
      (l.foldl (fun acc p => p.2.servicePorts.foldl seenInsert acc) acc).Nodup := by
    intro l
    induction l with
    | nil => intro acc h; simpa
    | cons p rest ih =>
      intro acc h
      rw [List.foldl_cons]
      exact ih _ (nodup_foldl_seenInsert _ _ h)
  exact main l [] (by simp)

lemma mem_dedupFeatures (l : List feature) (g : feature) :
    g ∈ dedupFeatures l ↔ g ∈ l := by
  unfold dedupFeatures
  rw [mem_foldl_seenInsert]
  simp

lemma nodup_dedupFeatures (l : List feature) : (dedupFeatures l).Nodup :=
  nodup_foldl_seenInsert _ _ (by simp)

lemma featuresForIngress_subset (ing : Ingress) :
    ∀ g ∈ featuresForIngress ing, g ∈ frontendFeaturesList := by
  intro g hg
  unfold featuresForIngress at hg
  simp only [List.mem_append] at hg
  rcases hg with (((((((((hg|hg)|hg)|hg)|hg)|hg)|hg)|hg)|hg)|hg) <;>
    first
      | (split at hg <;> simp_all [frontendFeaturesList])
      | simp_all [frontendFeaturesList]

lemma featuresForServicePort_subset (sp : ServicePort) :
    ∀ g ∈ featuresForServicePort sp, g ∈ backendFeaturesList := by
  intro g hg
  unfold featuresForServicePort at hg
  simp only [List.mem_append] at hg
  rcases hg with ((((((((((hg|hg)|hg)|hg)|hg)|hg)|hg)|hg)|hg)|hg)|hg) <;>
    first
      | (split at hg <;> simp_all [backendFeaturesList])
      | simp_all [backendFeaturesList]

lemma featuresForIngress_sublist (ing : Ingress) :
    List.Sublist (featuresForIngress ing)
      ([feature.ingress] ++ [feature.internalIngress, feature.externalIngress] ++
      [feature.httpEnabled] ++ [feature.hostBasedRouting] ++
      [feature.pathBasedRouting] ++ [feature.preSharedCertsForTLS] ++
      [feature.managedCertsForTLS] ++ [feature.secretBasedCertsForTLS] ++
      [feature.tlsTermination] ++ [feature.staticGlobalIP]) := by
  unfold featuresForIngress
  refine List.Sublist.append (List.Sublist.append (List.Sublist.append
    (List.Sublist.append (List.Sublist.append (List.Sublist.append
    (List.Sublist.append (List.Sublist.append (List.Sublist.append
    ?_ ?_) ?_) ?_) ?_) ?_) ?_) ?_) ?_) ?_ <;>
    first
      | (split_ifs <;> decide)
      | decide

lemma featuresForIngress_nodup (ing : Ingress) : (featuresForIngress ing).Nodup :=
  List.Nodup.sublist (featuresForIngress_sublist ing) (by decide)

lemma featuresForServicePort_sublist (sp : ServicePort) :
    List.Sublist (featuresForServicePort sp)
      ([feature.servicePort] ++
      [feature.internalServicePort, feature.externalServicePort] ++
      [feature.neg] ++ [feature.cloudCDN] ++ [feature.cloudIAP] ++
      [feature.cookieAffinity] ++ [feature.clientIPAffinity] ++
      [feature.cloudArmor] ++ [feature.backendConnectionDraining] ++
      [feature.backendTimeout] ++ [feature.customRequestHeaders]) := by
  unfold featuresForServicePort
  refine List.Sublist.append (List.Sublist.append (List.Sublist.append
    (List.Sublist.append (List.Sublist.append (List.Sublist.append
    (List.Sublist.append (List.Sublist.append (List.Sublist.append
    (List.Sublist.append ?_ ?_) ?_) ?_) ?_) ?_) ?_) ?_) ?_) ?_) ?_ <;>
    first
      | (split_ifs <;> decide)
      | decide

lemma featuresForServicePort_nodup (sp : ServicePort) :
    (featuresForServicePort sp).Nodup :=
  List.Nodup.sublist (featuresForServicePort_sublist sp) (by decide)

lemma ingress_mem_featuresForIngress (ing : Ingress) :
    feature.ingress ∈ featuresForIngress ing := by
  unfold featuresForIngress
  simp

lemma mem_foldl_append {α β : Type} (h : β → List α) (l : List β) (acc : List α)
    (x : α) :
    x ∈ l.foldl (fun acc b => acc ++ h b) acc ↔ x ∈ acc ∨ ∃ b ∈ l, x ∈ h b := by
  induction l generalizing acc with
  | nil => simp
  | cons b rest ih =>
    rw [List.foldl_cons, ih]
    simp [or_assoc]

lemma mem_ingressFeatureSet (st : IngressState) (g : feature) :
    g ∈ ingressFeatureSet st ↔
      g ∈ featuresForIngress st.ingress ∨
        ∃ sp ∈ st.servicePorts, g ∈ featuresForServicePort sp := by
  unfold ingressFeatureSet
  rw [mem_dedupFeatures, List.mem_append, mem_foldl_append]
  simp

lemma sum_counts_eq_countP {β : Type} (l : List β) (h : β → List feature) (g : feature)
    (hnd : ∀ b, (h b).Nodup) :
    (l.map (fun b => (h b).count g)).sum = l.countP (fun b => decide (g ∈ h b)) := by
  induction l with
  | nil => rfl
  | cons b rest ih =>
    rw [List.map_cons, List.sum_cons, ih, List.countP_cons]
    by_cases hm : g ∈ h b
    · rw [List.count_eq_one_of_mem (hnd b) hm]
      simp [hm, Nat.add_comm]
    · rw [List.count_eq_zero_of_not_mem hm]
      simp [hm]

lemma nodup_ingressFeatureSet (st : IngressState) : (ingressFeatureSet st).Nodup :=
  nodup_dedupFeatures _

lemma initCounts_fst_lookup : ∀ g ∈ ingressCountKeys, cmLookup initCounts.1 g = some 0 := by
  decide

lemma initCounts_snd_lookup : ∀ g ∈ backendFeaturesList, cmLookup initCounts.2 g = some 0 := by
  decide

lemma ingCount_lookup (cm : ControllerMetrics) (g : feature)
    (hg : g ∈ ingressCountKeys) :
    cmLookup (computeIngressMetrics cm).1 g =
      some (cm.ingressMap.countP (fun p => decide (g ∈ ingressFeatureSet p.2))) := by
  have hdef : (computeIngressMetrics cm).1 =
      cm.ingressMap.foldl (fun acc p => cmIncList acc (ingressFeatureSet p.2))
        initCounts.1 := rfl
  have h1 := cmLookup_foldl (fun p : String × IngressState => ingressFeatureSet p.2)
    cm.ingressMap initCounts.1 g
  have h2 := sum_counts_eq_countP cm.ingressMap
    (fun p : String × IngressState => ingressFeatureSet p.2) g
    (fun p => nodup_ingressFeatureSet p.2)
  rw [hdef, h1, initCounts_fst_lookup g hg, h2]
  simp

lemma svcCount_lookup (cm : ControllerMetrics) (g : feature)
    (hg : g ∈ backendFeaturesList) :
    cmLookup (computeIngressMetrics cm).2 g =
      some ((uniqueSvcPorts cm).countP
        (fun sp => decide (g ∈ featuresForServicePort sp))) := by
  have hdef : (computeIngressMetrics cm).2 =
      (uniqueSvcPorts cm).foldl (fun acc sp => cmIncList acc (featuresForServicePort sp))
        initCounts.2 := rfl
  have h1 := cmLookup_foldl featuresForServicePort (uniqueSvcPorts cm) initCounts.2 g
  have h2 := sum_counts_eq_countP (uniqueSvcPorts cm) featuresForServicePort g
    featuresForServicePort_nodup
  rw [hdef, h1, initCounts_snd_lookup g hg, h2]
  simp

lemma ingCount_keys (cm : ControllerMetrics) :
    cmKeys (computeIngressMetrics cm).1 = ingressCountKeys := by
  have hdef : (computeIngressMetrics cm).1 =
      cm.ingressMap.foldl (fun acc p => cmIncList acc (ingressFeatureSet p.2))
        initCounts.1 := rfl
  have h1 := cmKeys_foldl (fun p : String × IngressState => ingressFeatureSet p.2)
    cm.ingressMap initCounts.1
  rw [hdef, h1]
  decide

lemma svcCount_keys (cm : ControllerMetrics) :
    cmKeys (computeIngressMetrics cm).2 = backendFeaturesList := by
  have hdef : (computeIngressMetrics cm).2 =
      (uniqueSvcPorts cm).foldl (fun acc sp => cmIncList acc (featuresForServicePort sp))
        initCounts.2 := rfl
  have h1 := cmKeys_foldl featuresForServicePort (uniqueSvcPorts cm) initCounts.2
  rw [hdef, h1]
  decide

lemma cmLookup_isSome_of_mem_keys (m : CountMap) (g : feature) (h : g ∈ cmKeys m) :
    (cmLookup m g).isSome := by
  induction m with
  | nil => simp [cmKeys] at h
  | cons p rest ih =>
    obtain ⟨a, n⟩ := p
    by_cases hag : a = g
    · simp [cmLookup, hag]
    · have h0 : g = a ∨ g ∈ cmKeys rest := by simpa [cmKeys] using h
      have h1 : g ∈ cmKeys rest := by
        rcases h0 with h0 | h0
        · exact absurd h0.symm hag
        · exact h0
      simpa [cmLookup, hag] using ih h1

lemma mem_cond_singleton (c : Prop) [Decidable c] (x g : feature) :
    g ∈ (if c then [x] else ([] : List feature)) ↔ c ∧ g = x := by
  split <;> simp_all

lemma mem_cond_pair (c : Prop) [Decidable c] (x y g : feature) :
    g ∈ (if c then [x] else [y]) ↔ ((c ∧ g = x) ∨ (¬ c ∧ g = y)) := by
  split <;> simp_all

lemma negStep_eval (s i a n : Int) (p : String × NegServiceState) :
    negStep [(feature.standaloneNeg, s), (feature.ingressNeg, i),
             (feature.asmNeg, a), (feature.neg, n)] p =
      [(feature.standaloneNeg, s + p.2.StandaloneNeg),
       (feature.ingressNeg, i + p.2.IngressNeg),
       (feature.asmNeg, a + p.2.AsmNeg),
       (feature.neg, n + (p.2.StandaloneNeg + p.2.IngressNeg + p.2.AsmNeg))] := by
  simp [negStep, negAdd]

lemma negFold (l : List (String × NegServiceState)) (s i a n : Int) :
    l.foldl negStep
      [(feature.standaloneNeg, s), (feature.ingressNeg, i),
       (feature.asmNeg, a), (feature.neg, n)] =
      [(feature.standaloneNeg, s + (l.map (fun p => p.2.StandaloneNeg)).sum),
       (feature.ingressNeg, i + (l.map (fun p => p.2.IngressNeg)).sum),
       (feature.asmNeg, a + (l.map (fun p => p.2.AsmNeg)).sum),
       (feature.neg, n + (l.map (fun p =>
          p.2.StandaloneNeg + p.2.IngressNeg + p.2.AsmNeg)).sum)] := by
  induction l generalizing s i a n with
  | nil => simp
  | cons p rest ih =>
    rw [List.foldl_cons, negStep_eval, ih]
    simp [add_assoc]

lemma computeNegMetrics_eq (cm : ControllerMetrics) :
    computeNegMetrics cm =
      [(feature.standaloneNeg, (cm.negMap.map (fun p => p.2.StandaloneNeg)).sum),
       (feature.ingressNeg, (cm.negMap.map (fun p => p.2.IngressNeg)).sum),
       (feature.asmNeg, (cm.negMap.map (fun p => p.2.AsmNeg)).sum),
       (feature.neg, (cm.negMap.map (fun p => p.2.StandaloneNeg)).sum
          + (cm.negMap.map (fun p => p.2.IngressNeg)).sum
          + (cm.negMap.map (fun p => p.2.AsmNeg)).sum)] := by
  have h := negFold cm.negMap 0 0 0 0
  have hsum : (cm.negMap.map (fun p =>
      p.2.StandaloneNeg + p.2.IngressNeg + p.2.AsmNeg)).sum =
      (cm.negMap.map (fun p => p.2.StandaloneNeg)).sum
        + (cm.negMap.map (fun p => p.2.IngressNeg)).sum
        + (cm.negMap.map (fun p => p.2.AsmNeg)).sum := by
    induction cm.negMap with
    | nil => simp
    | cons p rest ih => simp [ih]; ring
  rw [show computeNegMetrics cm = cm.negMap.foldl negStep
    [(feature.standaloneNeg, 0), (feature.ingressNeg, 0), (feature.asmNeg, 0),
     (feature.neg, 0)] from rfl, h, hsum]
  simp

lemma cmLookup_eq_none_of_not_mem_keys (m : CountMap) (g : feature)
    (h : g ∉ cmKeys m) : cmLookup m g = none := by
  induction m with
  | nil => rfl
  | cons p rest ih =>
    obtain ⟨a, n⟩ := p
    by_cases hag : a = g
    · exact absurd (by simp [cmKeys, hag]) h
    · have h1 : g ∉ cmKeys rest := by
        intro hh
        apply h
        have : cmKeys ((a, n) :: rest) = a :: cmKeys rest := rfl
        rw [this]
        exact List.mem_cons_of_mem a hh
      simpa [cmLookup, hag] using ih h1

lemma tlsTermination_mem_iff (ing : Ingress) :
    feature.tlsTermination ∈ featuresForIngress ing ↔
      (hasPreSharedCert ing || hasManagedCert ing || hasSecretBasedCerts ing) = true := by
  unfold featuresForIngress
  by_cases h1 : hasPreSharedCert ing <;> by_cases h2 : hasManagedCert ing <;>
    by_cases h3 : hasSecretBasedCerts ing <;>
      simp [h1, h2, h3, mem_cond_singleton, mem_cond_pair]

lemma httpEnabled_mem_iff (ing : Ingress) :
    feature.httpEnabled ∈ featuresForIngress ing ↔ allowHTTP ing = true := by
  unfold featuresForIngress
  by_cases h : allowHTTP ing <;> simp [h, mem_cond_singleton, mem_cond_pair]

/-- C1 fails on the code: `tsp0` and `tsp2` carry the same identity
triple yet are different `ServicePort` values, and both contribute to
the backend feature counts — `servicePort` is counted 2, not 1 as
identity-triple dedup with a single first-seen representative would
give. -/
theorem C1_counterexample :
    tsp0.id = tsp2.id ∧ tsp0 ≠ tsp2 ∧
    cmLookup (computeIngressMetrics cmDup).2 feature.servicePort = some 2 :=
  ⟨rfl, by decide, by rfl⟩

/-- C1 (amended): in one `computeIngressMetrics` pass, backends are
deduplicated by the whole `ServicePort` value, not by the identity
triple alone: the distinct-backend set contains every referenced value
exactly once (first-seen order, no duplicate values), and every backend
feature count is the number of distinct backend values exhibiting that
feature, so equal values referenced by several routing objects
contribute exactly once. -/
theorem C1_backend_dedup_by_value (cm : ControllerMetrics) (g : feature)
    (hg : g ∈ backendFeaturesList) :
    cmLookup (computeIngressMetrics cm).2 g =
      some ((uniqueSvcPorts cm).countP
        (fun sp => decide (g ∈ featuresForServicePort sp))) ∧
    (uniqueSvcPorts cm).Nodup ∧
    (∀ sp, sp ∈ uniqueSvcPorts cm ↔ ∃ p ∈ cm.ingressMap, sp ∈ p.2.servicePorts) :=
  ⟨svcCount_lookup cm g hg, nodup_uniqueSvcPorts cm,
    fun sp => mem_uniqueSvcPorts cm sp⟩

/-- Witness for C1 (amended) at the two-object registry `cmDup` and the
`servicePort` tag. -/
theorem C1_backend_dedup_by_value_witness :
    feature.servicePort ∈ backendFeaturesList ∧
    cmLookup (computeIngressMetrics cmDup).2 feature.servicePort =
      some ((uniqueSvcPorts cmDup).countP
        (fun sp => decide (feature.servicePort ∈ featuresForServicePort sp))) :=
  ⟨by decide, (C1_backend_dedup_by_value cmDup feature.servicePort (by decide)).1⟩

/-- C2 fails as stated: the per-object count map is not initialized with
exactly the FrontendFeature vocabulary — it also carries backend tags
such as `cloudCDN`, present (at 0) even for the empty registry. -/
theorem C2_counterexample :
    cmLookup (computeIngressMetrics NewControllerMetrics).1 feature.cloudCDN = some 0 ∧
    feature.cloudCDN ∉ frontendFeaturesList :=
  ⟨rfl, by decide⟩

/-- C2 (amended): `computeIngressMetrics` initializes the per-object map
with every FrontendFeature tag mapped to 0 — alongside the nine
per-object backend tags, so its key set is `ingressCountKeys`, a strict
superset of the FrontendFeature vocabulary — and the per-backend map
with exactly the BackendFeature vocabulary mapped to 0; for every
registry state (including the empty one, whose result is exactly the
initial maps) each returned map contains every tag of its closed
vocabulary, with a non-negative (`Nat`) value. -/
theorem C2_total_coverage (cm : ControllerMetrics) :
    computeIngressMetrics NewControllerMetrics = initCounts ∧
    cmKeys (computeIngressMetrics cm).1 = ingressCountKeys ∧
    cmKeys (computeIngressMetrics cm).2 = backendFeaturesList ∧
    frontendFeaturesList.all
      (fun g => (cmLookup (computeIngressMetrics cm).1 g).isSome) = true ∧
    backendFeaturesList.all
      (fun g => (cmLookup (computeIngressMetrics cm).2 g).isSome) = true := by
  refine ⟨rfl, ingCount_keys cm, svcCount_keys cm, ?_, ?_⟩
  · rw [List.all_eq_true]
    intro g hg
    apply cmLookup_isSome_of_mem_keys
    rw [ingCount_keys]
    have hsub : ∀ x ∈ frontendFeaturesList, x ∈ ingressCountKeys := by decide
    exact hsub g hg
  · rw [List.all_eq_true]
    intro g hg
    apply cmLookup_isSome_of_mem_keys
    rw [svcCount_keys]
    exact hg

/-- C3 fails as stated: the per-object count map does not contain every
BackendFeature tag — the `servicePort` tag (a BackendFeature) is absent
from its key set, already for the empty registry. -/
theorem C3_counterexample :
    cmLookup (computeIngressMetrics NewControllerMetrics).1 feature.servicePort = none ∧
    feature.servicePort ∈ backendFeaturesList :=
  ⟨rfl, by decide⟩

/-- C3 (amended): the per-object count map contains every BackendFeature
tag except the three servicePort kind tags (`servicePort`,
`externalServicePort`, `internalServicePort`, which are absent from it);
for each tracked backend tag its value counts the registered routing
objects referencing at least one backend that exhibits the feature. -/
theorem C3_per_object_backend_counts (cm : ControllerMetrics) (g : feature)
    (hg : g ∈ ingressBackendTags) :
    cmLookup (computeIngressMetrics cm).1 g =
      some (cm.ingressMap.countP (fun p =>
        p.2.servicePorts.any (fun sp => decide (g ∈ featuresForServicePort sp)))) ∧
    cmLookup (computeIngressMetrics cm).1 feature.servicePort = none ∧
    cmLookup (computeIngressMetrics cm).1 feature.externalServicePort = none ∧
    cmLookup (computeIngressMetrics cm).1 feature.internalServicePort = none := by
  have hnone : ∀ x ∈ [feature.servicePort, feature.externalServicePort,
      feature.internalServicePort], cmLookup (computeIngressMetrics cm).1 x = none := by
    intro x hx
    apply cmLookup_eq_none_of_not_mem_keys
    rw [ingCount_keys]
    have hsub : ∀ x ∈ [feature.servicePort, feature.externalServicePort,
        feature.internalServicePort], x ∉ ingressCountKeys := by decide
    exact hsub x hx
  refine ⟨?_, hnone _ (by decide), hnone _ (by decide), hnone _ (by decide)⟩
  have hkeys : g ∈ ingressCountKeys := by
    have hsub : ∀ x ∈ ingressBackendTags, x ∈ ingressCountKeys := by decide
    exact hsub g hg
  have hfr : g ∉ frontendFeaturesList := by
    have hsub : ∀ x ∈ ingressBackendTags, x ∉ frontendFeaturesList := by decide
    exact hsub g hg
  rw [ingCount_lookup cm g hkeys]
  refine congrArg some (List.countP_congr ?_)
  intro p hp
  rw [decide_eq_true_eq, List.any_eq_true, mem_ingressFeatureSet]
  constructor
  · rintro (h | ⟨sp, hsp, hmem⟩)
    · exact absurd (featuresForIngress_subset _ g h) hfr
    · exact ⟨sp, hsp, decide_eq_true hmem⟩
  · rintro ⟨sp, hsp, hdec⟩
    exact Or.inr ⟨sp, hsp, of_decide_eq_true hdec⟩

/-- Witness for C3 (amended) at the full twelve-object registry `cmAll`
and the `cloudCDN` tag. -/
theorem C3_per_object_backend_counts_witness :
    feature.cloudCDN ∈ ingressBackendTags ∧
    cmLookup (computeIngressMetrics cmAll).1 feature.cloudCDN =
      some (cmAll.ingressMap.countP (fun p =>
        p.2.servicePorts.any
          (fun sp => decide (feature.cloudCDN ∈ featuresForServicePort sp)))) :=
  ⟨by decide, (C3_per_object_backend_counts cmAll feature.cloudCDN (by decide)).1⟩

/-- C4: `featuresForIngress` always emits the `ingress` tag, each
registered routing object increments each of its tags exactly once, and
hence the per-object count of `ingress` equals the number of registered
routing objects, for every registry state. -/
theorem C4_ingress_tag_counts :
    (∀ ing, feature.ingress ∈ featuresForIngress ing) ∧
    (∀ cm : ControllerMetrics,
      cmLookup (computeIngressMetrics cm).1 feature.ingress =
        some cm.ingressMap.length) := by
  refine ⟨ingress_mem_featuresForIngress, fun cm => ?_⟩
  rw [ingCount_lookup cm feature.ingress (by decide)]
  refine congrArg some (List.countP_eq_length.mpr ?_)
  intro p hp
  exact decide_eq_true ((mem_ingressFeatureSet p.2 feature.ingress).mpr
    (Or.inl (ingress_mem_featuresForIngress p.2.ingress)))

/-- C5: `computeNegMetrics` is additive — each per-tag total is the
field-wise sum of the registered `NegServiceState` counters and the
combined `neg` total is the sum of the three per-tag totals — and the
groups (0,0,1), (0,1,0), (5,3,2) aggregate to standalone 5, ingress 4,
mesh 3, total 12. -/
theorem C5_group_metrics_additive :
    (∀ cm : ControllerMetrics, computeNegMetrics cm =
      [(feature.standaloneNeg, (cm.negMap.map (fun p => p.2.StandaloneNeg)).sum),
       (feature.ingressNeg, (cm.negMap.map (fun p => p.2.IngressNeg)).sum),
       (feature.asmNeg, (cm.negMap.map (fun p => p.2.AsmNeg)).sum),
       (feature.neg, (cm.negMap.map (fun p => p.2.StandaloneNeg)).sum
          + (cm.negMap.map (fun p => p.2.IngressNeg)).sum
          + (cm.negMap.map (fun p => p.2.AsmNeg)).sum)]) ∧
    computeNegMetrics cmNeg3 =
      [(feature.standaloneNeg, 5), (feature.ingressNeg, 4),
       (feature.asmNeg, 3), (feature.neg, 12)] :=
  ⟨computeNegMetrics_eq, by rfl⟩

/-- C6: `featuresForIngress` emits `tlsTermination` exactly when one of
the three certificate sources is present (pre-shared-cert annotation,
managed-cert annotation, or a TLS entry referencing a secret), and the
tag occurs at most once in the result. -/
theorem C6_tls_termination (ing : Ingress) :
    (feature.tlsTermination ∈ featuresForIngress ing ↔
      (hasPreSharedCert ing || hasManagedCert ing || hasSecretBasedCerts ing) = true) ∧
    (featuresForIngress ing).count feature.tlsTermination ≤ 1 :=
  ⟨tlsTermination_mem_iff ing,
    List.nodup_iff_count_le_one.mp (featuresForIngress_nodup ing) _⟩

/-- C7: a routing object with no rules, no TLS spec and no annotations
classifies to exactly `[ingress, externalIngress, httpEnabled]`, and the
`httpEnabled` tag is omitted whenever the disable-HTTP annotation is set
to a false-like value. -/
theorem C7_empty_spec_and_http_disabled :
    (∀ nsv nmv bk,
      featuresForIngress { ns := nsv, name := nmv, anns := [], backend := bk,
                           rules := [], tls := [] } =
        [feature.ingress, feature.externalIngress, feature.httpEnabled]) ∧
    (∀ ing v, annLookup ing.anns allowHTTPKey = some v → isFalseLike v = true →
      feature.httpEnabled ∉ featuresForIngress ing) := by
  constructor
  · intro nsv nmv bk
    rfl
  · intro ing v h1 h2 hmem
    have hfalse : allowHTTP ing = false := by
      unfold allowHTTP
      rw [h1]
      simp [h2]
    rw [httpEnabled_mem_iff, hfalse] at hmem
    simp at hmem

/-- Witness for C7 at the "empty spec" and "http disabled" test
fixtures. -/
theorem C7_empty_spec_and_http_disabled_witness :
    featuresForIngress ing0 =
      [feature.ingress, feature.externalIngress, feature.httpEnabled] ∧
    annLookup ing1.anns allowHTTPKey = some "false" ∧
    isFalseLike "false" = true ∧
    feature.httpEnabled ∉ featuresForIngress ing1 :=
  ⟨C7_empty_spec_and_http_disabled.1 "default" "ingress0" none, rfl, rfl,
    C7_empty_spec_and_http_disabled.2 ing1 "false" rfl rfl⟩

/-- C8: `featuresForServicePort` emits `customRequestHeaders` whenever
the custom-request-headers config object is present, with no condition
on its header list (an empty list still triggers the tag). -/
theorem C8_custom_request_headers (sp : ServicePort) (cfg : BackendConfigSpec)
    (h1 : sp.backendConfig = some cfg)
    (h2 : cfg.customRequestHeaders.isSome = true) :
    feature.customRequestHeaders ∈ featuresForServicePort sp := by
  have hpres : spHasCustomRequestHeaders sp = true := by
    unfold spHasCustomRequestHeaders
    rw [h1]
    exact h2
  unfold featuresForServicePort
  simp [hpres]

/-- Witness for C8 at the `foo-service` test fixture, whose config holds
an explicitly empty custom-request-header list. -/
theorem C8_custom_request_headers_witness :
    tsp1cfg.customRequestHeaders = some { headers := [] } ∧
    feature.customRequestHeaders ∈ featuresForServicePort tsp1 :=
  ⟨rfl, C8_custom_request_headers tsp1 tsp1cfg rfl (by decide)⟩

/-- C9: re-setting a key with the same value is idempotent — the second
`Set` replaces the stored snapshot instead of adding an entry, so the
registry and hence all aggregation results are unchanged. -/
theorem C9_set_idempotent (cm : ControllerMetrics) (k : String)
    (v : IngressState) (w : NegServiceState) :
    computeIngressMetrics (SetIngress (SetIngress cm k v) k v) =
      computeIngressMetrics (SetIngress cm k v) ∧
    computeNegMetrics (SetNegService (SetNegService cm k w) k w) =
      computeNegMetrics (SetNegService cm k w) ∧
    SetIngress (SetIngress cm k v) k v = SetIngress cm k v ∧
    SetNegService (SetNegService cm k w) k w = SetNegService cm k w := by
  have h1 : SetIngress (SetIngress cm k v) k v = SetIngress cm k v := by
    simp [SetIngress, mapSet_idem]
  have h2 : SetNegService (SetNegService cm k w) k w = SetNegService cm k w := by
    simp [SetNegService, mapSet_idem]
  exact ⟨by rw [h1], by rw [h2], h1, h2⟩

/-- C10: `Delete` on an absent key is a no-op that leaves the registry
unchanged (`Set`/`Delete` are total functions and cannot fail), and
deleting a registered key before aggregating yields exactly the counts
computed from a registry in which the key was never set. -/
theorem C10_delete_removes_contribution (cm : ControllerMetrics) (k : String)
    (v : IngressState) (w : NegServiceState) :
    (containsKey cm.ingressMap k = false → DeleteIngress cm k = cm) ∧
    (containsKey cm.negMap k = false → DeleteNegService cm k = cm) ∧
    (containsKey cm.ingressMap k = false →
      computeIngressMetrics (DeleteIngress (SetIngress cm k v) k) =
        computeIngressMetrics cm) ∧
    (containsKey cm.negMap k = false →
      computeNegMetrics (DeleteNegService (SetNegService cm k w) k) =
        computeNegMetrics cm) := by
  obtain ⟨im, nm⟩ := cm
  refine ⟨fun h => ?_, fun h => ?_, fun h => ?_, fun h => ?_⟩
  · simp only [DeleteIngress]
    rw [mapDelete_absent im k (by simpa using h)]
  · simp only [DeleteNegService]
    rw [mapDelete_absent nm k (by simpa using h)]
  · have hreg : DeleteIngress (SetIngress ⟨im, nm⟩ k v) k = ⟨im, nm⟩ := by
      simp only [DeleteIngress, SetIngress]
      rw [mapDelete_mapSet_absent im k v (by simpa using h)]
    rw [hreg]
  · have hreg : DeleteNegService (SetNegService ⟨im, nm⟩ k w) k = ⟨im, nm⟩ := by
      simp only [DeleteNegService, SetNegService]
      rw [mapDelete_mapSet_absent nm k w (by simpa using h)]
    rw [hreg]

/-- Witness for C10 at the empty registry and a concrete key, ingress
state and NEG state. -/
theorem C10_delete_removes_contribution_witness :
    containsKey NewControllerMetrics.ingressMap "default/ingress0" = false ∧
    containsKey NewControllerMetrics.negMap "default/ingress0" = false ∧
    DeleteIngress NewControllerMetrics "default/ingress0" = NewControllerMetrics ∧
    computeIngressMetrics (DeleteIngress (SetIngress NewControllerMetrics
        "default/ingress0" (NewIngressState ing0 [tsp0])) "default/ingress0") =
      computeIngressMetrics NewControllerMetrics ∧
    computeNegMetrics (DeleteNegService (SetNegService NewControllerMetrics
        "default/ingress0" { StandaloneNeg := 1, IngressNeg := 2, AsmNeg := 3 })
        "default/ingress0") =
      computeNegMetrics NewControllerMetrics :=
  ⟨rfl, rfl,
    (C10_delete_removes_contribution NewControllerMetrics "default/ingress0"
      (NewIngressState ing0 [tsp0])
      { StandaloneNeg := 1, IngressNeg := 2, AsmNeg := 3 }).1 rfl,
    (C10_delete_removes_contribution NewControllerMetrics "default/ingress0"
      (NewIngressState ing0 [tsp0])
      { StandaloneNeg := 1, IngressNeg := 2, AsmNeg := 3 }).2.2.1 rfl,
    (C10_delete_removes_contribution NewControllerMetrics "default/ingress0"
      (NewIngressState ing0 [tsp0])
      { StandaloneNeg := 1, IngressNeg := 2, AsmNeg := 3 }).2.2.2 rfl⟩
